import Mathlib

/-!
# The "AI Study Tool" screen (`web-app/src/App.jsx`)

`App` is a React function component that returns one fixed JSX tree.  The tree
is embedded as a value of `Node`; the single inline arrow function that occurs
in it (the `onClick` of the upload section) is embedded as a `Handler` whose
body is a list of statements, run against a `World` holding the console and the
component's hook cells.
-/

namespace StudyTool

/-! ## Data model -/

/-- Statements that occur in the body of an inline handler. -/
inductive Stmt where
  /-- The call `console.log(s)` with a string literal argument. -/
  | consoleLog (s : String)
  deriving DecidableEq, Repr

/-- An arrow function `(params) => body`. -/
structure Handler where
  params : List String
  body : List Stmt
  deriving DecidableEq, Repr

/-- A JSX attribute. -/
inductive Attr where
  /-- A string-valued attribute, `name="value"`. -/
  | str (name value : String)
  /-- An inline style object, `style={{ k: "v", ... }}`. -/
  | style (decls : List (String × String))
  /-- A function-valued attribute, `name={(...) => ...}`. -/
  | fn (name : String) (h : Handler)
  deriving DecidableEq, Repr

/-- A JSX node: literal text or an element with attributes and children. -/
inductive Node where
  | text (s : String)
  | elem (tag : String) (attrs : List Attr) (children : List Node)
  deriving Repr

/-- The props object handed to a component by its caller. -/
abbrev Props := List (String × String)

/-! ## The component -/

/-- Lines 14-27, the block under the comment `Upload Section`. -/
def uploadSection : Node :=
  .elem "div"
    [.str "className" "bg-gray-50 rounded-2xl p-5 border border-gray-200 flex items-center gap-4 hover:bg-white hover:cursor-pointer transition-all duration-200 hover:-translate-y-1 hover:shadow-lg active:translate-y-0 active:shadow-md active:scale-95",
     .fn "onClick" ⟨[], [.consoleLog "clicked"]⟩]
    [.elem "div" [.str "className" "bg-white rounded-xl p-3 shadow-sm"]
       [.elem "Upload" [.str "className" "w-6 h-6 text-gray-400"] []],
     .elem "div" []
       [.elem "h3" [.str "className" "font-semibold text-gray-900 text-sm"]
          [.text "Upload your file"],
        .elem "p" [.str "className" "text-xs text-gray-500"] [.text "PDF / DOCX / TXT"]]]

/-- Lines 30-47, the block under the comment `Question Card`. -/
def questionCard : Node :=
  .elem "div" [.str "className" "bg-gray-50 rounded-2xl p-6 border border-gray-200"]
    [.elem "div" [.str "className" "flex items-start gap-3"]
       [.elem "button" [.str "className" "mt-2 p-1 hover:bg-gray-200 rounded-lg transition-colors"]
          [.elem "ChevronLeft" [.str "className" "w-5 h-5 text-gray-400"] []],
        .elem "div" [.str "className" "flex-1"]
          [.elem "h2" [.str "className" "text-lg font-bold text-gray-900 mb-2"]
             [.text "What is photosynthesis?"],
           .elem "p" [.str "className" "text-sm text-gray-600"]
             [.text "The process by which plants convert sunlight into energy"]],
        .elem "button" [.str "className" "mt-2 p-1 hover:bg-gray-200 rounded-lg transition-colors"]
          [.elem "ChevronRight" [.str "className" "w-5 h-5 text-gray-400"] []]]]

/-- Lines 50-83, the block under the comment `Quiz Mode`. -/
def quizMode : Node :=
  .elem "div" []
    [.elem "h3" [.str "className" "font-bold text-gray-900 mb-4 text-sm"] [.text "Quiz Mode"],
     .elem "div" [.str "className" "grid grid-cols-2 gap-3"]
       [.elem "button" [.str "className" "bg-white border border-gray-200 rounded-xl p-3 text-left hover:border-gray-300 transition-colors text-sm"]
          [.elem "span" [.str "className" "text-gray-500 font-medium"] [.text "A."],
           .elem "span" [.str "className" "text-gray-700 ml-2"] [.text "Cellular respiration"]],
        .elem "button" [.str "className" "bg-blue-50 border border-blue-400 rounded-xl p-3 text-left flex items-center gap-2 text-sm relative"]
          [.elem "span" [.str "className" "text-blue-600 font-medium"] [.text "B."],
           .elem "span" [.str "className" "text-gray-900 ml-1"] [.text "Photosynthesis"],
           .elem "div" [.str "className" "ml-auto w-4 h-4 bg-blue-500 rounded-full flex items-center justify-center"]
             [.elem "svg"
                [.str "className" "w-2.5 h-2.5 text-white",
                 .str "fill" "currentColor",
                 .str "viewBox" "0 0 20 20"]
                [.elem "path" [.str "d" "M16.707 5.293a1 1 0 010 1.414l-8 8a1 1 0 01-1.414 0l-4-4a1 1 0 011.414-1.414L8 12.586l7.293-7.293a1 1 0 011.414 0z"] []]]],
        .elem "button" [.str "className" "bg-white border border-gray-200 rounded-xl p-3 text-left hover:border-gray-300 transition-colors text-sm"]
          [.elem "span" [.str "className" "text-gray-500 font-medium"] [.text "C."],
           .elem "span" [.str "className" "text-gray-700 ml-2"] [.text "Osmosis"]],
        .elem "button" [.str "className" "bg-white border border-gray-200 rounded-xl p-3 text-left hover:border-gray-300 transition-colors text-sm"]
          [.elem "span" [.str "className" "text-gray-500 font-medium"] [.text "D."],
           .elem "span" [.str "className" "text-gray-700 ml-2"] [.text "Mitosis"]]]]

/-- Lines 12-84, the block under the comment `Left Section`. -/
def leftSection : Node :=
  .elem "div" [.str "className" "flex-1 space-y-6"] [uploadSection, questionCard, quizMode]

/-- Lines 87-138, the block under the comment `Right Section - Progress`. -/
def rightSection : Node :=
  .elem "div" [.str "className" "w-48 space-y-6"]
    [.elem "div" []
       [.elem "h3" [.str "className" "font-semibold text-gray-700 mb-3 text-sm"] [.text "Progress"],
        .elem "div" [.str "className" "text-5xl font-bold text-indigo-600 mb-1"] [.text "85%"],
        .elem "p" [.str "className" "text-xs text-gray-500"] [.text "Accuracy"]],
     .elem "div" []
       [.elem "div" [.str "className" "text-4xl font-bold text-gray-900 mb-1"] [.text "8"],
        .elem "p" [.str "className" "text-xs text-gray-500"] [.text "Streak"]],
     .elem "div" [.str "className" "space-y-4"]
       [.elem "div" []
          [.elem "p" [.str "className" "text-xs text-gray-600 mb-2"] [.text "Weak Topics"],
           .elem "div" [.str "className" "bg-gray-200 rounded-full h-2 overflow-hidden"]
             [.elem "div"
                [.str "className" "bg-indigo-600 h-full rounded-full",
                 .style [("width", "65%")]] []]],
        .elem "div" []
          [.elem "p" [.str "className" "text-xs text-gray-600 mb-2"] [.text "Strong Topics"],
           .elem "div" [.str "className" "bg-gray-200 rounded-full h-2 overflow-hidden"]
             [.elem "div"
                [.str "className" "bg-indigo-600 h-full rounded-full",
                 .style [("width", "95%")]] []]]],
     .elem "div" [.str "className" "h-24 mt-6"]
       [.elem "svg"
          [.str "viewBox" "0 0 200 80",
           .str "className" "w-full h-full",
           .str "preserveAspectRatio" "none"]
          [.elem "path"
             [.str "d" "M 0 60 Q 20 55, 40 50 T 80 45 T 120 35 T 160 40 T 200 30",
              .str "fill" "none",
              .str "stroke" "#4F46E5",
              .str "strokeWidth" "2.5",
              .str "strokeLinecap" "round"] []]]]

/-- Lines 10-139, the `flex gap-8` container holding the two columns. -/
def layout : Node :=
  .elem "div" [.str "className" "flex gap-8"] [leftSection, rightSection]

/-- The function `App` (lines 4-143).  It is declared without parameters and
calls no hook, so whatever the caller passes is not read. -/
def App (_props : Props) : Node :=
  .elem "div" [.str "className" "min-h-screen bg-gradient-to-br from-gray-50 to-gray-100 flex items-center justify-center p-6"]
    [.elem "div" [.str "className" "bg-white rounded-3xl shadow-xl p-10 max-w-7xl w-full"]
       [.elem "h1" [.str "className" "text-2xl font-bold text-gray-900 mb-8"] [.text "AI Study Tool"],
        layout]]

/-! ## Tree queries -/

namespace Node

/-- Tag of an element; text nodes have none. -/
def tag? : Node → Option String
  | .text _ => none
  | .elem t _ _ => some t

/-- Attributes of an element. -/
def attrs : Node → List Attr
  | .text _ => []
  | .elem _ as _ => as

/-- Direct children of an element. -/
def children : Node → List Node
  | .text _ => []
  | .elem _ _ cs => cs

mutual
/-- Every node of the tree in document order (pre-order), the root first. -/
def nodes : Node → List Node
  | .text s => [.text s]
  | .elem t as cs => .elem t as cs :: nodesList cs
/-- Document-order nodes of a list of siblings. -/
def nodesList : List Node → List Node
  | [] => []
  | c :: cs => nodes c ++ nodesList cs
end

end Node

/-! ## More queries -/

/-- Name under which an attribute is written. -/
def Attr.name : Attr → String
  | .str n _ => n
  | .style _ => "style"
  | .fn n _ => n

namespace Node

/-- Value of the string attribute `k`, if the element has one. -/
def attr? (k : String) (n : Node) : Option String :=
  n.attrs.findSome? fun a =>
    match a with
    | .str k' v => if k' = k then some v else none
    | _ => none

/-- Function-valued attributes of an element, with their names. -/
def handlers (n : Node) : List (String × Handler) :=
  n.attrs.filterMap fun a =>
    match a with
    | .fn k h => some (k, h)
    | _ => none

/-- Handlers registered on this element for the React event prop `name`. -/
def handlersNamed (name : String) (n : Node) : List Handler :=
  (n.handlers.filter fun kh => kh.1 = name).map Prod.snd

/-- All inline style declarations of an element. -/
def styleDecls (n : Node) : List (String × String) :=
  n.attrs.flatMap fun a =>
    match a with
    | .style ds => ds
    | _ => []

/-- The inline `width` of an element, if it declares one. -/
def inlineWidth? (n : Node) : Option String :=
  (n.styleDecls.find? fun d => d.1 = "width").map Prod.snd

/-- Whether the element carries a `disabled` attribute. -/
def isDisabled (n : Node) : Bool :=
  n.attrs.any fun a => a.name = "disabled"

/-- Whether the node is an element with tag `t`. -/
def hasTag (t : String) (n : Node) : Bool :=
  n.tag? = some t

/-- The literal text of a text node. -/
def text? : Node → Option String
  | .text s => some s
  | .elem _ _ _ => none

/-- All text contained in the subtree, in document order. -/
def texts (n : Node) : List String :=
  n.nodes.filterMap text?

/-- Proper descendants of a node in document order. -/
def descendants (n : Node) : List Node :=
  nodesList n.children

/-- The node reached from `n` by following child indices. -/
def at? : Node → List Nat → Option Node
  | n, [] => some n
  | .text _, _ :: _ => none
  | .elem _ _ cs, i :: rest =>
    match cs[i]? with
    | some c => at? c rest
    | none => none

/-- The propagation chain of an event whose target sits at `path`: the target
first, then its ancestors up to the root.  `none` if there is no such target. -/
def bubble : Node → List Nat → Option (List Node)
  | n, [] => some [n]
  | .text _, _ :: _ => none
  | .elem t as cs, i :: rest =>
    match cs[i]? with
    | some c => (bubble c rest).map fun chain => chain ++ [.elem t as cs]
    | none => none

end Node

/-- Split a character list at blanks, dropping empty pieces. -/
def splitBlanks : List Char → List Char → List (List Char)
  | [], cur => if cur = [] then [] else [cur.reverse]
  | c :: cs, cur =>
    if c = ' ' then
      (if cur = [] then splitBlanks cs [] else cur.reverse :: splitBlanks cs [])
    else splitBlanks cs (c :: cur)

/-- The class tokens of an element, as written in its `className`. -/
def Node.classes (n : Node) : List String :=
  match n.attr? "className" with
  | some v => (splitBlanks v.data []).map String.mk
  | none => []

/-- Whether the element has the class token `c`. -/
def Node.hasClass (c : String) (n : Node) : Bool :=
  n.classes.contains c

/-- Adjacent pairs of a list. -/
def adjacent {α : Type} : List α → List (α × α)
  | a :: b :: rest => (a, b) :: adjacent (b :: rest)
  | _ => []

/-- All pairs of adjacent siblings in the tree, in document order of the parent. -/
def siblingPairs (t : Node) : List (Node × Node) :=
  t.nodes.flatMap fun n => adjacent n.children

/-! ## Queries used by the properties -/

/-- The elements that directly follow a heading whose text is `title`. -/
def bodyUnder (title : String) (t : Node) : List Node :=
  (siblingPairs t).filterMap fun p =>
    if p.1.texts = [title] then some p.2 else none

/-- The answer options: the children of the grid under the heading `Quiz Mode`. -/
def quizOptions (t : Node) : List Node :=
  ((bodyUnder "Quiz Mode" t).filter (Node.hasClass "grid")).flatMap Node.children

/-- The letter label of an option: the text of its first child. -/
def optionLabel (o : Node) : List String :=
  match o.children with
  | l :: _ => l.texts
  | [] => []

/-- Whether `pat` occurs as a contiguous run inside a character list. -/
def containsChars (pat : List Char) : List Char → Bool
  | [] => pat.isPrefixOf []
  | c :: cs => pat.isPrefixOf (c :: cs) || containsChars pat cs

/-- Whether a class token names a blue colour. -/
def isBlueClass (c : String) : Bool :=
  containsChars "blue".data c.data

/-- The blue class tokens on the option button itself. -/
def highlightClasses (o : Node) : List String :=
  o.classes.filter isBlueClass

/-- The blue class tokens anywhere inside the option. -/
def highlightClassesDeep (o : Node) : List String :=
  o.nodes.flatMap fun n => n.classes.filter isBlueClass

/-- The `d` attributes of the icons (an `svg` with a `path`) inside an option. -/
def checkMarks (o : Node) : List String :=
  (o.descendants.filter (Node.hasTag "svg")).flatMap fun s =>
    (s.children.filter (Node.hasTag "path")).filterMap (Node.attr? "d")

/-- The texts shown directly above a `p` label reading `label`. -/
def valueAbove (label : String) (t : Node) : List (List String) :=
  (siblingPairs t).filterMap fun p =>
    if p.2.hasTag "p" && p.2.texts = [label] then some p.1.texts else none

/-- The progress bars: every track (an element with a child that declares an
inline width) together with the text of the sibling before it and the widths
of its fills. -/
def progressBars (t : Node) : List (List String × List String) :=
  (siblingPairs t).filterMap fun p =>
    match p.2.children.filterMap Node.inlineWidth? with
    | [] => none
    | ws => some (p.1.texts, ws)

/-- Adjacent triples of a list. -/
def adjacent3 {α : Type} : List α → List (α × α × α)
  | a :: b :: c :: rest => (a, b, c) :: adjacent3 (b :: c :: rest)
  | _ => []

/-- Every run of three siblings whose first is a button holding just a
`ChevronLeft` icon and whose last is a button holding just a `ChevronRight`
icon. -/
def betweenChevrons (t : Node) : List (Node × Node × Node) :=
  (t.nodes.flatMap fun n => adjacent3 n.children).filter fun p =>
    p.1.hasTag "button" && p.1.children.map Node.tag? == [some "ChevronLeft"] &&
    p.2.2.hasTag "button" && p.2.2.children.map Node.tag? == [some "ChevronRight"]

/-! ## Running handlers -/

/-- What the page can change: the console and the component's hook cells. -/
structure World where
  console : List String
  hooks : List String
  deriving DecidableEq, Repr

/-- A browser event handed to a handler. -/
structure Event where
  type : String
  clientX : Int
  clientY : Int
  deriving DecidableEq, Repr

/-- Effect of one statement. -/
def Stmt.exec : Stmt → World → World
  | .consoleLog s, w => { w with console := w.console ++ [s] }

/-- Call an arrow function with the event as its argument. -/
def Handler.run (h : Handler) (_ev : Event) (w : World) : World :=
  h.body.foldl (fun w s => s.exec w) w

/-- Deliver the React event `name` (for instance `onClick`) to the node at
`path`: the handlers registered under that name on the target and on its
ancestors run, innermost first. -/
def dispatch (t : Node) (name : String) (path : List Nat) (ev : Event) (w : World) : World :=
  match t.bubble path with
  | none => w
  | some chain => (chain.flatMap (Node.handlersNamed name)).foldl (fun w h => h.run ev w) w

/-- Something that happens to the mounted component. -/
inductive Action where
  /-- The parent renders the component with the given props. -/
  | render (props : Props)
  /-- An event is delivered to the node at `path` of the current tree. -/
  | event (name : String) (path : List Nat) (ev : Event)

/-- One step: a render calls `App`, which touches nothing; an event is
dispatched on the tree of the latest props. -/
def step (sw : Props × World) : Action → (Props × World) × Option Node
  | .render p => ((p, sw.2), some (App p))
  | .event name path ev => ((sw.1, dispatch (App sw.1) name path ev sw.2), none)

/-- The trees returned by the renders of a run, in order. -/
def rendered : Props × World → List Action → List Node
  | _, [] => []
  | sw, a :: rest =>
    match step sw a with
    | (sw', some t) => t :: rendered sw' rest
    | (sw', none) => rendered sw' rest

/-- The world after a run. -/
def runAll : Props × World → List Action → Props × World
  | sw, [] => sw
  | sw, a :: rest => runAll (step sw a).1 rest

/-- Whether an action is a render. -/
def Action.isRender : Action → Bool
  | .render _ => true
  | .event _ _ _ => false

/-! ## SVG path data -/

/-- A lexical item of path data. -/
inductive Tok where
  | cmd (c : Char)
  | num (n : Nat)
  deriving DecidableEq, Repr

/-- Close the number being read, if any. -/
def flushNum : Option Nat → List Tok
  | some n => [.num n]
  | none => []

/-- Read path data made of command letters and unsigned integers separated by
blanks or commas; anything else is rejected. -/
def tokenize : List Char → Option Nat → Option (List Tok)
  | [], cur => some (flushNum cur)
  | c :: cs, cur =>
    if c.isDigit then
      tokenize cs (some (cur.getD 0 * 10 + (c.toNat - '0'.toNat)))
    else if c = ' ' ∨ c = ',' then
      (tokenize cs none).map fun ts => flushNum cur ++ ts
    else if c.isAlpha then
      (tokenize cs none).map fun ts => flushNum cur ++ .cmd c :: ts
    else none

/-- The coordinate pairs written after the commands `M`, `Q` and `T`, each
marked `true` when it is a point the line passes through (a move-to or curve
end point) and `false` when it is a control point. -/
def coordPairs : List Tok → Option (List (Bool × Nat × Nat))
  | [] => some []
  | .cmd 'M' :: .num x :: .num y :: rest => (coordPairs rest).map fun ps => (true, x, y) :: ps
  | .cmd 'Q' :: .num x1 :: .num y1 :: .num x :: .num y :: rest =>
    (coordPairs rest).map fun ps => (false, x1, y1) :: (true, x, y) :: ps
  | .cmd 'T' :: .num x :: .num y :: rest => (coordPairs rest).map fun ps => (true, x, y) :: ps
  | _ => none

/-- The four numbers of a `viewBox`: min-x, min-y, width, height. -/
def parseViewBox (s : String) : Option (Nat × Nat × Nat × Nat) :=
  match tokenize s.data none with
  | some [.num x, .num y, .num w, .num h] => some (x, y, w, h)
  | _ => none

/-- The charts of a tree: every `svg` that sets `preserveAspectRatio`, with its
`viewBox` and the `d` of each `path` child. -/
def charts (t : Node) : List (Option String × List (Option String)) :=
  (t.nodes.filter fun n => n.hasTag "svg" && (n.attr? "preserveAspectRatio").isSome).map fun s =>
    (s.attr? "viewBox", (s.children.filter (Node.hasTag "path")).map (Node.attr? "d"))

/-- Whether a point lies inside a view box. -/
def inViewBox (vb : Nat × Nat × Nat × Nat) (p : Nat × Nat) : Bool :=
  vb.1 ≤ p.1 && p.1 ≤ vb.1 + vb.2.2.1 && vb.2.1 ≤ p.2 && p.2 ≤ vb.2.1 + vb.2.2.2

/-- The charts with their view box and path data parsed. -/
def chartPoints (t : Node) : List (Option (Nat × Nat × Nat × Nat) × List (Option (List (Bool × Nat × Nat)))) :=
  (charts t).map fun c =>
    (c.1.bind parseViewBox,
     c.2.map fun d => (d.bind fun s => tokenize s.data none).bind coordPairs)

/-- The x coordinates of the points the line passes through. -/
def endPointXs (pts : List (Bool × Nat × Nat)) : List Nat :=
  (pts.filter fun p => p.1).map fun p => p.2.1

/-! ## Properties of the rendered tree -/

theorem App_const (props : Props) : App props = App [] := rfl

/-- C1: the grid under "Quiz Mode" holds exactly four buttons labelled A., B.,
C., D. in this order; B carries the blue highlight classes and the check-mark
icon; A, C and D carry no blue class anywhere and contain no icon, only their
two spans. -/
theorem quiz_options_four_B_selected (props : Props) :
    (bodyUnder "Quiz Mode" (App props)).map Node.classes = [["grid", "grid-cols-2", "gap-3"]] ∧
    (quizOptions (App props)).map Node.tag? =
      [some "button", some "button", some "button", some "button"] ∧
    (quizOptions (App props)).map optionLabel = [["A."], ["B."], ["C."], ["D."]] ∧
    (quizOptions (App props)).map Node.texts =
      [["A.", "Cellular respiration"], ["B.", "Photosynthesis"], ["C.", "Osmosis"],
       ["D.", "Mitosis"]] ∧
    (quizOptions (App props)).map highlightClasses =
      [[], ["bg-blue-50", "border-blue-400"], [], []] ∧
    (quizOptions (App props)).map highlightClassesDeep =
      [[], ["bg-blue-50", "border-blue-400", "text-blue-600", "bg-blue-500"], [], []] ∧
    (quizOptions (App props)).map checkMarks =
      [[], ["M16.707 5.293a1 1 0 010 1.414l-8 8a1 1 0 01-1.414 0l-4-4a1 1 0 011.414-1.414L8 12.586l7.293-7.293a1 1 0 011.414 0z"], [], []] ∧
    (quizOptions (App props)).map (fun o => o.descendants.filterMap Node.tag?) =
      [["span", "span"], ["span", "span", "div", "svg", "path"], ["span", "span"],
       ["span", "span"]] := by
  rw [App_const props]
  decide

/-- C3: the tree has exactly two progress bars, labelled "Weak Topics" then
"Strong Topics", whose fills have inline width 65% and 95%; these two fills are
the only elements with an inline width, and indeed with any inline style. -/
theorem progress_bars_widths (props : Props) :
    progressBars (App props) = [(["Weak Topics"], ["65%"]), (["Strong Topics"], ["95%"])] ∧
    (App props).nodes.filterMap Node.inlineWidth? = ["65%", "95%"] ∧
    (App props).nodes.flatMap Node.styleDecls = [("width", "65%"), ("width", "95%")] ∧
    ((App props).nodes.filter fun n => n.attrs.any fun a => a.name = "style").length = 2 ∧
    ((App props).nodes.filter fun n => n.attrs.any fun a => a.name = "width").length = 0 := by
  rw [App_const props]
  decide

/-- C6, as the code has it: the question card shows the question and its
answer between a `ChevronLeft` button and a `ChevronRight` button; neither
button carries a `disabled` attribute, and neither has a handler. -/
theorem question_card_between_enabled_buttons (props : Props) :
    (betweenChevrons (App props)).map (fun p => p.2.1.texts) =
      [["What is photosynthesis?",
        "The process by which plants convert sunlight into energy"]] ∧
    (betweenChevrons questionCard).length = 1 ∧
    (betweenChevrons (App props)).map (fun p => (p.1.isDisabled, p.2.2.isDisabled)) =
      [(false, false)] ∧
    (betweenChevrons (App props)).map (fun p => (p.1.attrs.map Attr.name, p.2.2.attrs.map Attr.name)) =
      [(["className"], ["className"])] ∧
    (betweenChevrons (App props)).map (fun p => (p.1.handlers, p.2.2.handlers)) =
      [([], [])] := by
  rw [App_const props]
  decide

/-- C6 as stated fails: the previous and next buttons of the tree are not
both disabled. -/
theorem prev_next_buttons_not_disabled :
    ¬ (∀ p ∈ betweenChevrons (App []), p.1.isDisabled = true ∧ p.2.2.isDisabled = true) := by
  decide

/-- C8: the `flex gap-8` container is the second child of the card, after the
title; it has exactly two children, the left and the right column; the left
column has exactly three children, the upload prompt, the question card and the
quiz options, in this order; the right column is the progress panel; apart from
the two wrappers, the title and the container itself, every node of the tree
lies in one of these four regions. -/
theorem layout_two_columns_four_regions (props : Props) :
    (App props).at? [0, 1] = some layout ∧
    ((App props).nodes.filter (Node.hasClass "gap-8")).map Node.children =
      [[leftSection, rightSection]] ∧
    layout.children = [leftSection, rightSection] ∧
    leftSection.children = [uploadSection, questionCard, quizMode] ∧
    uploadSection.texts = ["Upload your file", "PDF / DOCX / TXT"] ∧
    questionCard.texts =
      ["What is photosynthesis?", "The process by which plants convert sunlight into energy"] ∧
    quizMode.texts =
      ["Quiz Mode", "A.", "Cellular respiration", "B.", "Photosynthesis", "C.", "Osmosis",
       "D.", "Mitosis"] ∧
    rightSection.texts =
      ["Progress", "85%", "Accuracy", "8", "Streak", "Weak Topics", "Strong Topics"] ∧
    ((App props).nodes.take 5).map (fun n => (n.tag?, n.text?)) =
      [(some "div", none), (some "div", none), (some "h1", none),
       (none, some "AI Study Tool"), (some "div", none)] ∧
    (App props).nodes.drop 5 =
      leftSection :: (uploadSection.nodes ++ questionCard.nodes ++ quizMode.nodes) ++
        rightSection.nodes := by
  rw [App_const props]
  refine ⟨rfl, rfl, rfl, rfl, by decide, by decide, by decide, by decide, by decide, rfl⟩

/-- C9: the chart is drawn in the view box `0 0 200 80`; its path data writes
the pairs (0,60), (20,55), (40,50), (80,45), (120,35), (160,40), (200,30); each
of them lies inside the view box, and the x coordinates of the points the line
passes through increase strictly from 0 to 200. -/
theorem chart_points_inside_viewBox (props : Props) :
    charts (App props) =
      [(some "0 0 200 80",
        [some "M 0 60 Q 20 55, 40 50 T 80 45 T 120 35 T 160 40 T 200 30"])] ∧
    chartPoints (App props) =
      [(some (0, 0, 200, 80),
        [some [(true, 0, 60), (false, 20, 55), (true, 40, 50), (true, 80, 45),
               (true, 120, 35), (true, 160, 40), (true, 200, 30)]])] ∧
    (chartPoints (App props)).all (fun c =>
      match c.1 with
      | none => false
      | some vb => c.2.all fun d =>
        match d with
        | none => false
        | some pts =>
          pts.all (fun p => inViewBox vb p.2 && decide (0 ≤ p.2.1 ∧ p.2.1 ≤ 200 ∧ 0 ≤ p.2.2 ∧ p.2.2 ≤ 80)) &&
          decide (List.Pairwise (fun a b => a < b) (endPointXs pts)) &&
          (endPointXs pts).head? == some vb.1 &&
          (endPointXs pts).getLast? == some (vb.1 + vb.2.2.1)) = true := by
  rw [App_const props]
  refine ⟨by decide, rfl, by decide⟩

/-! ## Runs of the mounted component -/

/-- Whatever happened before, a render returns the one fixed tree. -/
theorem rendered_eq (acts : List Action) :
    ∀ (sw : Props × World) (t : Node), t ∈ rendered sw acts → t = App [] := by
  induction acts with
  | nil => intro sw t h; simp [rendered] at h
  | cons a rest ih =>
    intro sw t h
    cases a with
    | render p =>
      simp only [rendered, step, List.mem_cons] at h
      rcases h with h | h
      · exact h
      · exact ih _ t h
    | event name path ev =>
      simp only [rendered, step] at h
      exact ih _ t h

theorem Node.mem_nodes_self (n : Node) : n ∈ n.nodes := by
  cases n <;> simp [Node.nodes]

theorem Node.nodes_sub_nodesList (cs : List Node) :
    ∀ (i : Nat) (c : Node), cs[i]? = some c → ∀ n ∈ c.nodes, n ∈ Node.nodesList cs := by
  induction cs with
  | nil => intro i c h; simp at h
  | cons d ds ih =>
    intro i c h n hn
    cases i with
    | zero =>
      simp only [List.getElem?_cons_zero, Option.some.injEq] at h
      subst h
      simp [Node.nodesList, hn]
    | succ j =>
      simp only [List.getElem?_cons_succ] at h
      simp [Node.nodesList, ih j c h n hn]

/-- Every node of a propagation chain is a node of the tree. -/
theorem Node.bubble_sub_nodes (path : List Nat) :
    ∀ (t : Node) (chain : List Node), t.bubble path = some chain →
      ∀ n ∈ chain, n ∈ t.nodes := by
  induction path with
  | nil =>
    intro t chain h n hn
    simp only [Node.bubble, Option.some.injEq] at h
    subst h
    simp only [List.mem_singleton] at hn
    subst hn
    exact Node.mem_nodes_self n
  | cons i rest ih =>
    intro t chain h n hn
    cases t with
    | text s => simp [Node.bubble] at h
    | elem tg as cs =>
      simp only [Node.bubble] at h
      cases hc : cs[i]? with
      | none => simp [hc] at h
      | some c =>
        simp only [hc] at h
        cases hb : c.bubble rest with
        | none => simp [hb] at h
        | some ch =>
          simp only [hb, Option.map_some', Option.some.injEq] at h
          subst h
          simp only [List.mem_append, List.mem_singleton] at hn
          rcases hn with hn | hn
          · simp only [Node.nodes, List.mem_cons]
            exact Or.inr (Node.nodes_sub_nodesList cs i c hc n (ih c ch hb n hn))
          · subst hn
            exact Node.mem_nodes_self _

/-- An event delivered into a tree none of whose nodes listens for it changes
nothing. -/
theorem dispatch_of_no_listener (t : Node) (name : String)
    (h : ∀ n ∈ t.nodes, n.handlersNamed name = []) (path : List Nat) (ev : Event) (w : World) :
    dispatch t name path ev w = w := by
  unfold dispatch
  cases hb : t.bubble path with
  | none => rfl
  | some chain =>
    have : chain.flatMap (Node.handlersNamed name) = [] := by
      simp only [List.flatMap_eq_nil_iff]
      intro n hn
      exact h n (Node.bubble_sub_nodes path t chain hb n hn)
    simp [this]

/-- Below an element that does not listen itself, delivery is delivery to the
child the path enters. -/
theorem dispatch_child (tg : String) (as : List Attr) (cs : List Node) (name : String)
    (h : Node.handlersNamed name (.elem tg as cs) = []) (i : Nat) (rest : List Nat)
    (ev : Event) (w : World) :
    dispatch (.elem tg as cs) name (i :: rest) ev w =
      match cs[i]? with
      | some c => dispatch c name rest ev w
      | none => w := by
  unfold dispatch
  simp only [Node.bubble]
  cases hc : cs[i]? with
  | none => rfl
  | some c =>
    cases hb : c.bubble rest with
    | none => simp [hb]
    | some ch => simp [hb, List.flatMap_append, h]

/-- Delivery of any event whose target is outside the upload section, or which
is not a click, leaves the world as it was. -/
theorem dispatch_App_elsewhere (props : Props) (name : String) (path : List Nat)
    (ev : Event) (w : World) (h : ¬ (name = "onClick" ∧ [0, 1, 0, 0] <+: path)) :
    dispatch (App props) name path ev w = w := by
  rw [App_const props]
  by_cases hn : name = "onClick"
  · subst hn
    have hp : ¬ [0, 1, 0, 0] <+: path := fun hp => h ⟨rfl, hp⟩
    rcases path with _ | ⟨i, r⟩
    · rfl
    unfold App
    rw [dispatch_child _ _ _ _ (by decide)]
    rcases i with _ | i
    swap
    · rfl
    simp only [List.getElem?_cons_zero]
    rcases r with _ | ⟨i, r⟩
    · rfl
    rw [dispatch_child _ _ _ _ (by decide)]
    rcases i with _ | _ | i
    · simp only [List.getElem?_cons_zero]
      exact dispatch_of_no_listener _ _ (by decide) r ev w
    swap
    · rfl
    simp only [List.getElem?_cons_succ, List.getElem?_cons_zero]
    rcases r with _ | ⟨i, r⟩
    · rfl
    unfold layout
    rw [dispatch_child _ _ _ _ (by decide)]
    rcases i with _ | _ | i
    · simp only [List.getElem?_cons_zero]
      rcases r with _ | ⟨i, r⟩
      · rfl
      unfold leftSection
      rw [dispatch_child _ _ _ _ (by decide)]
      rcases i with _ | _ | _ | i
      · exact absurd ⟨r, rfl⟩ hp
      · simp only [List.getElem?_cons_succ, List.getElem?_cons_zero]
        exact dispatch_of_no_listener questionCard _ (by decide) r ev w
      · simp only [List.getElem?_cons_succ, List.getElem?_cons_zero]
        exact dispatch_of_no_listener quizMode _ (by decide) r ev w
      · rfl
    · simp only [List.getElem?_cons_succ, List.getElem?_cons_zero]
      exact dispatch_of_no_listener rightSection _ (by decide) r ev w
    · rfl
  · apply dispatch_of_no_listener
    intro n hn'
    have hall : ∀ m ∈ (App []).nodes, ∀ kh ∈ m.handlers, kh.1 = "onClick" := by decide
    simp only [Node.handlersNamed, List.map_eq_nil_iff, List.filter_eq_nil_iff]
    intro kh hkh hk
    have := hall n hn' kh hkh
    simp only [decide_eq_true_eq] at hk
    exact hn (hk ▸ this)

/-- Every render of a run returns a tree. -/
theorem rendered_length (acts : List Action) :
    ∀ sw : Props × World, (rendered sw acts).length = (acts.filter Action.isRender).length := by
  induction acts with
  | nil => intro sw; rfl
  | cons a rest ih =>
    intro sw
    cases a with
    | render p => simp [rendered, step, Action.isRender, ih]
    | event name path ev => simp [rendered, step, Action.isRender, ih]

/-! ## Properties that involve runs -/

/-- C2: above the label "Accuracy" the tree shows exactly the text "85%" and
above the label "Streak" exactly the text "8", for every props value and in
every tree returned by a render of any run, whatever the starting world and
whatever renders and events came before. -/
theorem accuracy_and_streak_literals (props : Props) (sw : Props × World)
    (acts : List Action) :
    valueAbove "Accuracy" (App props) = [["85%"]] ∧
    valueAbove "Streak" (App props) = [["8"]] ∧
    ∀ t ∈ rendered sw acts,
      valueAbove "Accuracy" t = [["85%"]] ∧ valueAbove "Streak" t = [["8"]] := by
  have h : valueAbove "Accuracy" (App []) = [["85%"]] ∧ valueAbove "Streak" (App []) = [["8"]] := by
    decide
  refine ⟨?_, ?_, ?_⟩
  · rw [App_const props]; exact h.1
  · rw [App_const props]; exact h.2
  · intro t ht
    rw [rendered_eq acts sw t ht]
    exact h

theorem accuracy_and_streak_literals_witness :
    valueAbove "Accuracy" (App [("streak", "0")]) = [["85%"]] ∧
    valueAbove "Streak" (App [("streak", "0")]) = [["8"]] :=
  (accuracy_and_streak_literals [("accuracy", "10%")] ([], ⟨[], ["x"]⟩)
      [.render [], .event "onClick" [0, 1, 0, 0] ⟨"click", 3, 4⟩, .render [("streak", "0")]]).2.2
    (App [("streak", "0")]) (List.mem_cons_of_mem _ (List.mem_cons_self _ _))

/-- C4: the upload section is the node at path 0,1,0,0 and its only handler is
the `onClick` arrow function; calling it with any event appends the one line
"clicked" to the console and leaves the hook cells alone, and so does a click
delivered to the section; the tree rendered after the click is the tree
rendered before it. -/
theorem upload_click_logs_once_keeps_state (props : Props) (ev : Event) (w : World) :
    (App props).at? [0, 1, 0, 0] = some uploadSection ∧
    uploadSection.handlers = [("onClick", ⟨[], [.consoleLog "clicked"]⟩)] ∧
    (uploadSection.handlersNamed "onClick").map (fun h => h.run ev w) =
      [{ console := w.console ++ ["clicked"], hooks := w.hooks }] ∧
    dispatch (App props) "onClick" [0, 1, 0, 0] ev w =
      { console := w.console ++ ["clicked"], hooks := w.hooks } ∧
    (dispatch (App props) "onClick" [0, 1, 0, 0] ev w).hooks = w.hooks ∧
    rendered (props, w) [.render props, .event "onClick" [0, 1, 0, 0] ev, .render props] =
      [App props, App props] ∧
    runAll (props, w) [.render props, .event "onClick" [0, 1, 0, 0] ev, .render props] =
      (props, { console := w.console ++ ["clicked"], hooks := w.hooks }) := by
  rw [App_const props]
  exact ⟨rfl, rfl, rfl, rfl, rfl, rfl, rfl⟩

/-- C5: `App` returns the same tree for any two props values, and any two trees
returned by renders of any two runs are equal, whatever the starting worlds and
whatever renders and events came before; each render of a run does return a
tree. -/
theorem App_render_constant (p q : Props) (sw sw' : Props × World)
    (acts acts' : List Action) :
    App p = App q ∧
    (rendered sw acts).length = (acts.filter Action.isRender).length ∧
    ∀ t ∈ rendered sw acts, ∀ t' ∈ rendered sw' acts', t = t' := by
  refine ⟨rfl, rendered_length acts sw, ?_⟩
  intro t ht t' ht'
  rw [rendered_eq acts sw t ht, rendered_eq acts' sw' t' ht']

theorem App_render_constant_witness :
    App [("user", "ann")] = App [] :=
  (App_render_constant [] [("k", "v")] ([], ⟨[], []⟩) ([("a", "b")], ⟨["old"], ["7"]⟩)
      [.render [("user", "ann")]]
      [.render [("n", "1")], .event "onClick" [0, 1, 0, 0] ⟨"click", 10, 20⟩,
       .event "onClick" [0, 1, 0, 0, 1, 0] ⟨"click", 11, 21⟩, .render []]).2.2
    (App [("user", "ann")]) (List.mem_cons_self _ _)
    (App []) (List.mem_cons_of_mem _ (List.mem_cons_self _ _))

/-- C7: the tree holds exactly one function-valued attribute, the `onClick` of
the upload section; the question card, the quiz options and the progress panel
hold none; and an event of any kind delivered to any target changes nothing
unless it is a click on the upload section or inside it. -/
theorem only_upload_has_handler (props : Props) :
    (App props).nodes.flatMap Node.handlers = [("onClick", ⟨[], [.consoleLog "clicked"]⟩)] ∧
    ((App props).nodes.filter fun n => !n.handlers.isEmpty) = [uploadSection] ∧
    (App props).at? [0, 1, 0, 0] = some uploadSection ∧
    (questionCard.nodes ++ quizMode.nodes ++ rightSection.nodes).flatMap Node.handlers = [] ∧
    ((App props).nodes.filter (Node.hasTag "button")).map Node.handlers =
      [[], [], [], [], [], []] ∧
    ∀ (name : String) (path : List Nat) (ev : Event) (w : World),
      ¬ (name = "onClick" ∧ [0, 1, 0, 0] <+: path) →
        dispatch (App props) name path ev w = w := by
  refine ⟨?_, ?_, ?_, by decide, ?_, ?_⟩
  · rw [App_const props]; decide
  · rw [App_const props]; rfl
  · rw [App_const props]; rfl
  · rw [App_const props]; decide
  · intro name path ev w h
    exact dispatch_App_elsewhere props name path ev w h

theorem only_upload_has_handler_witness :
    dispatch (App []) "onClick" [0, 1, 0, 1, 0, 0] ⟨"click", 5, 5⟩ ⟨["a"], ["s"]⟩ =
      ⟨["a"], ["s"]⟩ ∧
    dispatch (App []) "onMouseEnter" [0, 1, 0, 0] ⟨"mouseenter", 5, 5⟩ ⟨["a"], ["s"]⟩ =
      ⟨["a"], ["s"]⟩ :=
  ⟨(only_upload_has_handler []).2.2.2.2.2 "onClick" [0, 1, 0, 1, 0, 0] ⟨"click", 5, 5⟩
      ⟨["a"], ["s"]⟩ (by decide),
   (only_upload_has_handler []).2.2.2.2.2 "onMouseEnter" [0, 1, 0, 0] ⟨"mouseenter", 5, 5⟩
      ⟨["a"], ["s"]⟩ (by decide)⟩

end StudyTool
